import Mathlib

/-! Smart plant watering system: shallow embedding of `app_driver.c` and `app_main.c`.

The embedding follows the two C files function by function.

* C `float` values are embedded as rationals.  Every value stored in
  `current_sensor_data` is `(float)raw / 10.0f` for an `int16_t` raw value
  (`sensor_task`), the two thresholds `35.0f` and `40.0f` are exactly
  representable and rounding to binary32 is monotone, so the comparisons
  `>= TEMP_HIGH_THRESHOLD` and `<= HUM_LOW_THRESHOLD` have the same outcome on the
  rational `raw / 10` as on its binary32 rounding.
* The output of `snprintf` is kept as the format string together with its
  arguments (`Formatted`).  All buffers are large enough for their formats over the
  `int16_t / 10` range, so no truncation occurs.
* Calls into the SDK (GPIO, RainMaker, SSD1306) are recorded as a trace of `Event`s,
  in program order.  `ESP_LOGx` calls are not part of the trace.
* `xSemaphoreTake(sensor_mutex, portMAX_DELAY)` blocks until the mutex is obtained;
  a critical section is embedded as one atomic function on the shared record, and a
  task cycle is a function of the snapshot it copied inside its critical section.
-/

namespace SmartPlant

/-! ## Common types -/

/-- Argument of a `printf`-style format. -/
inductive FmtArg where
  | float (x : ℚ)
  | str (s : String)
  deriving DecidableEq, Repr

/-- Result of `snprintf(buf, sizeof buf, fmt, args...)`: the format and its arguments. -/
structure Formatted where
  fmt : String
  args : List FmtArg
  deriving DecidableEq, Repr

/-- Embedding of `snprintf`. -/
def snprintf (fmt : String) (args : List FmtArg) : Formatted := ⟨fmt, args⟩

/-- Value of `esp_err_t`. -/
abbrev esp_err_t := Int

/-- Value of `ESP_OK`. -/
def ESP_OK : esp_err_t := 0

/-- Calls into the SDK made by the embedded functions. -/
inductive Event where
  | gpio_set_level (gpio : Nat) (level : Nat)
  | esp_rmaker_raise_alert (msg : Formatted)
  | esp_rmaker_param_update_and_report (param : String) (val : ℚ)
  | ssd1306_clear_screen (fill : Nat)
  | ssd1306_draw_string (x y : Nat) (text : Formatted) (size mode : Nat)
  | ssd1306_refresh_gram
  deriving DecidableEq, Repr

/-! ## `app_driver.c` -/

/-- Value of `OUTPUT_GPIO`. -/
def OUTPUT_GPIO : Nat := 3

/-- Embedding of `set_power_state`: one `gpio_set_level` on the active-low output. -/
def set_power_state (target : Bool) : List Event :=
  let level := if target then 0 else 1
  [Event.gpio_set_level OUTPUT_GPIO level]

/-- Embedding of `app_driver_set_state`.  The first component is the new value of
`g_power_state`, the second the return value, the third the SDK calls made. -/
def app_driver_set_state (g_power_state : Bool) (state : Bool) :
    Bool × esp_err_t × List Event :=
  if g_power_state != state then
    let g_power_state := state
    (g_power_state, ESP_OK, set_power_state g_power_state)
  else
    (g_power_state, ESP_OK, [])

/-- Embedding of `app_driver_get_state`: the new value of `g_power_state` and the
returned value. -/
def app_driver_get_state (g_power_state : Bool) : Bool × Bool :=
  (g_power_state, g_power_state)

/-! ## `app_main.c`: shared sensor data -/

/-- Value of `TEMP_HIGH_THRESHOLD`. -/
def TEMP_HIGH_THRESHOLD : ℚ := 35

/-- Value of `HUM_LOW_THRESHOLD`. -/
def HUM_LOW_THRESHOLD : ℚ := 40

/-- Embedding of `sensor_data_t`. -/
structure sensor_data_t where
  temperature : ℚ
  humidity : ℚ
  valid : Bool
  deriving DecidableEq, Repr

/-- Initial value of `current_sensor_data` (`= {0}`). -/
def current_sensor_data_init : sensor_data_t := ⟨0, 0, false⟩

/-- Outcome of `dht_read_data`: the returned code and the two raw outputs. -/
structure dht_result where
  res : esp_err_t
  humidity : Int
  temperature : Int
  deriving DecidableEq, Repr

/-- First critical section of `sensor_task` (success branch). -/
def sensor_publish (_cur : sensor_data_t) (t h : ℚ) : sensor_data_t :=
  { temperature := t, humidity := h, valid := true }

/-- Second critical section of `sensor_task` (failure branch). -/
def sensor_invalidate (cur : sensor_data_t) : sensor_data_t :=
  { cur with valid := false }

/-- One iteration of the loop of `sensor_task`, given the outcome of `dht_read_data`. -/
def sensor_task_cycle (cur : sensor_data_t) (r : dht_result) : sensor_data_t :=
  if r.res = ESP_OK then
    let t : ℚ := (r.temperature : ℚ) / 10
    let h : ℚ := (r.humidity : ℚ) / 10
    sensor_publish cur t h
  else
    sensor_invalidate cur

/-- The copy `data = current_sensor_data` made inside the critical section of a
reader task. -/
def snapshot (cur : sensor_data_t) : sensor_data_t := cur

/-! ## `app_main.c`: display helper -/

/-- Embedding of `oled_show_readings`.  `ssd1306_dev` tells whether the handle is
non-NULL. -/
def oled_show_readings (ssd1306_dev : Bool) (temperature humidity : ℚ) (buzzer_on : Bool)
    (status : String) : List Event :=
  if !ssd1306_dev then
    []
  else
    let line1 := snprintf "T:%.1fC H:%.1f%%" [FmtArg.float temperature, FmtArg.float humidity]
    let line2 := snprintf "Pump: %s" [FmtArg.str (if buzzer_on then "ON" else "OFF")]
    let line3 := snprintf "%s" [FmtArg.str status]
    [Event.ssd1306_clear_screen 0,
     Event.ssd1306_draw_string 0 0 line1 12 1,
     Event.ssd1306_draw_string 0 16 line2 12 1,
     Event.ssd1306_draw_string 0 32 line3 12 1,
     Event.ssd1306_refresh_gram]

/-! ## `app_main.c`: the three reader tasks -/

/-- One iteration of the loop of `cloud_task` on its snapshot `data`.  `temp_param`
and `hum_param` tell whether the parameter handles are non-NULL. -/
def cloud_task_cycle (temp_param hum_param : Bool) (data : sensor_data_t) : List Event :=
  if data.valid then
    (if temp_param then
        [Event.esp_rmaker_param_update_and_report "temperature" data.temperature]
      else []) ++
    (if hum_param then
        [Event.esp_rmaker_param_update_and_report "humidity" data.humidity]
      else [])
  else
    []

/-- Threshold checks of `alert_task`: the values of `alert_needed` and `alert_msg`
after the `if / else if / else if` chain.  `alert_msg` starts as `{0}`. -/
def alert_task_check (data : sensor_data_t) : Bool × Formatted :=
  let temp_high : Bool := decide (data.temperature ≥ TEMP_HIGH_THRESHOLD)
  let hum_low : Bool := decide (data.humidity ≤ HUM_LOW_THRESHOLD)
  if temp_high && hum_low then
    (true, snprintf "Too hot & too dry! T=%.1f°C H=%.1f%%"
      [FmtArg.float data.temperature, FmtArg.float data.humidity])
  else if temp_high then
    (true, snprintf "Temperature too high! %.1f°C" [FmtArg.float data.temperature])
  else if hum_low then
    (true, snprintf "Humidity too low! %.1f%%" [FmtArg.float data.humidity])
  else
    (false, snprintf "" [])

/-- One iteration of the loop of `alert_task` on its snapshot `data`: the new value
of `last_alert_state` and the SDK calls made. -/
def alert_task_cycle (last_alert_state : Bool) (data : sensor_data_t) : Bool × List Event :=
  if data.valid then
    let (alert_needed, alert_msg) := alert_task_check data
    if alert_needed && !last_alert_state then
      (true, [Event.esp_rmaker_raise_alert alert_msg])
    else if !alert_needed && last_alert_state then
      (false, [])
    else
      (last_alert_state, [])
  else
    (last_alert_state, [])

/-- Status text chosen by `display_task` for a valid snapshot.  The four formats
have no conversion, so the buffer holds the literal. -/
def display_task_status (data : sensor_data_t) : String :=
  let temp_high : Bool := decide (data.temperature ≥ TEMP_HIGH_THRESHOLD)
  let hum_low : Bool := decide (data.humidity ≤ HUM_LOW_THRESHOLD)
  if temp_high && hum_low then
    "Too hot & dry!"
  else if temp_high then
    "Temp too high!"
  else if hum_low then
    "Humidity low!"
  else
    "Plant is OK :)"

/-- One iteration of the loop of `display_task` on its snapshot `data`.  The buffer
`status` starts as `"Initializing..."`; it is overwritten in the valid branch, the
only place where it is passed on. -/
def display_task_cycle (ssd1306_dev : Bool) (g_power_state : Bool) (data : sensor_data_t) :
    List Event :=
  let status : String := "Initializing..."
  if data.valid then
    let status : String := display_task_status data
    let buzzer_state := (app_driver_get_state g_power_state).2
    oled_show_readings ssd1306_dev data.temperature data.humidity buzzer_state status
  else
    []

/-! ## Drivers: sequences of calls and task iterations -/

/-- Consecutive calls of `app_driver_set_state`, one per element of the list: the
final value of `g_power_state` and the SDK calls made, in order. -/
def app_driver_set_state_seq (g_power_state : Bool) : List Bool → Bool × List Event
  | [] => (g_power_state, [])
  | state :: rest =>
    let r := app_driver_set_state g_power_state state
    let r2 := app_driver_set_state_seq r.1 rest
    (r2.1, r.2.2 ++ r2.2)

/-- Consecutive iterations of the loop of `alert_task`, one per snapshot of the list:
the final value of `last_alert_state` and the SDK calls made, in order. -/
def alert_task_loop (last_alert_state : Bool) : List sensor_data_t → Bool × List Event
  | [] => (last_alert_state, [])
  | data :: rest =>
    let r := alert_task_cycle last_alert_state data
    let r2 := alert_task_loop r.1 rest
    (r2.1, r.2 ++ r2.2)

/-- An operation on the shared record: one of the two critical sections of
`sensor_task`. -/
inductive SensorOp where
  | publish (t h : ℚ)
  | invalidate
  deriving DecidableEq, Repr

/-- Effect of one critical section of `sensor_task` on `current_sensor_data`. -/
def SensorOp.apply (cur : sensor_data_t) : SensorOp → sensor_data_t
  | SensorOp.publish t h => sensor_publish cur t h
  | SensorOp.invalidate => sensor_invalidate cur

/-- Effect of a sequence of critical sections, oldest first. -/
def run_sensor_ops (cur : sensor_data_t) (ops : List SensorOp) : sensor_data_t :=
  ops.foldl SensorOp.apply cur

/-- Variables of the program that the four task loops read or write.  The command
path (`write_cb`) is not among the steps below, so `g_power_state` stays as given. -/
structure AppState where
  current_sensor_data : sensor_data_t
  g_power_state : Bool
  last_alert_state : Bool
  ssd1306_dev : Bool
  temp_param : Bool
  hum_param : Bool
  deriving DecidableEq, Repr

/-- One loop iteration of one of the four tasks.  The sensor iteration carries the
outcome of its `dht_read_data` call. -/
inductive Step where
  | sensor (r : dht_result)
  | cloud
  | alert
  | display
  deriving DecidableEq, Repr

/-- Effect of one task iteration on the program variables, with the SDK calls made. -/
def AppState.step (s : AppState) : Step → AppState × List Event
  | Step.sensor r =>
    ({ s with current_sensor_data := sensor_task_cycle s.current_sensor_data r }, [])
  | Step.cloud =>
    (s, cloud_task_cycle s.temp_param s.hum_param (snapshot s.current_sensor_data))
  | Step.alert =>
    let r := alert_task_cycle s.last_alert_state (snapshot s.current_sensor_data)
    ({ s with last_alert_state := r.1 }, r.2)
  | Step.display =>
    (s, display_task_cycle s.ssd1306_dev s.g_power_state (snapshot s.current_sensor_data))

/-- Effect of a schedule of task iterations, with the SDK calls made, in order. -/
def AppState.run (s : AppState) : List Step → AppState × List Event
  | [] => (s, [])
  | st :: rest =>
    let r := s.step st
    let r2 := AppState.run r.1 rest
    (r2.1, r.2 ++ r2.2)

/-- Whether a task iteration is a sensor iteration whose read succeeded. -/
def Step.publishes : Step → Bool
  | Step.sensor r => decide (r.res = ESP_OK)
  | _ => false

/-! ## Specification-side definitions -/

/-- The four condition classes of the specification. -/
inductive AlertCondition where
  | NORMAL
  | TOO_HOT
  | TOO_DRY
  | TOO_HOT_AND_DRY
  deriving DecidableEq, Repr

/-- Classification table of the specification: both flags give the combined class,
one flag gives the single class, none gives `NORMAL`. -/
def classify (temp_high hum_low : Bool) : AlertCondition :=
  match temp_high, hum_low with
  | true, true => AlertCondition.TOO_HOT_AND_DRY
  | true, false => AlertCondition.TOO_HOT
  | false, true => AlertCondition.TOO_DRY
  | false, false => AlertCondition.NORMAL

/-- Condition class of a reading according to the specification. -/
def condition_of (data : sensor_data_t) : AlertCondition :=
  classify (decide (data.temperature ≥ TEMP_HIGH_THRESHOLD))
    (decide (data.humidity ≤ HUM_LOW_THRESHOLD))

/-- The `abnormal` flag of the specification: the condition is not `NORMAL`. -/
def abnormal (data : sensor_data_t) : Bool :=
  decide (condition_of data ≠ AlertCondition.NORMAL)

/-- Class expressed by the outcome of the threshold checks of `alert_task`: no alert
needed is `NORMAL`; otherwise the class is told by which of the three messages was
written. -/
def alert_class (r : Bool × Formatted) : Option AlertCondition :=
  if r.1 = false then some AlertCondition.NORMAL
  else if r.2.fmt = "Too hot & too dry! T=%.1f°C H=%.1f%%" then
    some AlertCondition.TOO_HOT_AND_DRY
  else if r.2.fmt = "Temperature too high! %.1f°C" then some AlertCondition.TOO_HOT
  else if r.2.fmt = "Humidity too low! %.1f%%" then some AlertCondition.TOO_DRY
  else none

/-- Status phrase that the specification gives for each class. -/
def status_phrase : AlertCondition → String
  | AlertCondition.TOO_HOT_AND_DRY => "too hot & dry"
  | AlertCondition.TOO_HOT => "temp too high"
  | AlertCondition.TOO_DRY => "humidity low"
  | AlertCondition.NORMAL => "ok"

/-- Whether an SDK call is a notification. -/
def Event.is_alert : Event → Bool
  | Event.esp_rmaker_raise_alert _ => true
  | _ => false

/-- Number of notifications in a trace. -/
def notifications (evs : List Event) : Nat :=
  (evs.filter Event.is_alert).length

/-- Rising edges among the cycles that follow a cycle of class `prev`: the cycles
that are not `NORMAL` and are immediately preceded by a `NORMAL` cycle. -/
def rising_edges_after (prev : AlertCondition) : List AlertCondition → Nat
  | [] => 0
  | c :: rest =>
    (if c ≠ AlertCondition.NORMAL ∧ prev = AlertCondition.NORMAL then 1 else 0)
      + rising_edges_after c rest

/-- Rising edges of a sequence of cycles: the cycles that are not `NORMAL` and are
either the first cycle or immediately preceded by a `NORMAL` cycle. -/
def rising_edges : List AlertCondition → Nat
  | [] => 0
  | c :: rest =>
    (if c ≠ AlertCondition.NORMAL then 1 else 0) + rising_edges_after c rest

/-- The reading written by the most recent `publish` of a sequence of operations,
oldest first; `none` when nothing was published. -/
def last_published : List SensorOp → Option (ℚ × ℚ)
  | [] => none
  | op :: rest =>
    match last_published rest with
    | some p => some p
    | none =>
      match op with
      | SensorOp.publish t h => some (t, h)
      | SensorOp.invalidate => none

/-! ## Auxiliary lemmas -/

theorem alert_task_check_needed (data : sensor_data_t) :
    (alert_task_check data).1 = abnormal data := by
  unfold alert_task_check abnormal condition_of
  by_cases h1 : data.temperature ≥ TEMP_HIGH_THRESHOLD <;>
    by_cases h2 : data.humidity ≤ HUM_LOW_THRESHOLD <;>
    simp [h1, h2, classify]

theorem alert_class_check (data : sensor_data_t) :
    alert_class (alert_task_check data) = some (condition_of data) := by
  unfold alert_task_check condition_of
  by_cases h1 : data.temperature ≥ TEMP_HIGH_THRESHOLD <;>
    by_cases h2 : data.humidity ≤ HUM_LOW_THRESHOLD <;>
    simp [h1, h2, classify, alert_class, snprintf]

theorem alert_task_cycle_valid (last_alert_state : Bool) (data : sensor_data_t)
    (hv : data.valid = true) :
    alert_task_cycle last_alert_state data =
      (abnormal data,
        if abnormal data && !last_alert_state then
          [Event.esp_rmaker_raise_alert (alert_task_check data).2]
        else []) := by
  rw [← alert_task_check_needed]
  unfold alert_task_cycle
  rw [if_pos hv]
  rcases alert_task_check data with ⟨needed, msg⟩
  cases needed <;> cases last_alert_state <;> simp

theorem alert_task_cycle_invalid (last_alert_state : Bool) (data : sensor_data_t)
    (hv : data.valid = false) :
    alert_task_cycle last_alert_state data = (last_alert_state, []) := by
  simp [alert_task_cycle, hv]

theorem notifications_append (xs ys : List Event) :
    notifications (xs ++ ys) = notifications xs + notifications ys := by
  simp [notifications]

theorem alert_task_loop_edges (snaps : List sensor_data_t) :
    ∀ (last_alert_state : Bool) (prev : AlertCondition),
      (∀ d ∈ snaps, d.valid = true) →
      last_alert_state = decide (prev ≠ AlertCondition.NORMAL) →
      notifications (alert_task_loop last_alert_state snaps).2
        = rising_edges_after prev (snaps.map condition_of) := by
  induction snaps with
  | nil => intro l prev _ _; rfl
  | cons d rest ih =>
    intro l prev hv hl
    have hd : d.valid = true := hv d (List.mem_cons_self _ _)
    have hrest : ∀ x ∈ rest, x.valid = true := fun x hx => hv x (List.mem_cons_of_mem _ hx)
    simp only [alert_task_loop, List.map_cons, rising_edges_after, notifications_append]
    rw [alert_task_cycle_valid l d hd]
    rw [ih (abnormal d) (condition_of d) hrest (by simp [abnormal])]
    congr 1
    subst hl
    by_cases hc : condition_of d = AlertCondition.NORMAL <;>
      by_cases hp : prev = AlertCondition.NORMAL <;>
      simp [abnormal, hc, hp, notifications, Event.is_alert]

theorem rising_edges_after_normal (cs : List AlertCondition) :
    rising_edges_after AlertCondition.NORMAL cs = rising_edges cs := by
  cases cs with
  | nil => rfl
  | cons c rest => simp [rising_edges_after, rising_edges]

theorem alert_task_loop_invalid (snaps : List sensor_data_t) (last_alert_state : Bool)
    (hv : ∀ d ∈ snaps, d.valid = false) :
    alert_task_loop last_alert_state snaps = (last_alert_state, []) := by
  induction snaps with
  | nil => rfl
  | cons d rest ih =>
    have hd : d.valid = false := hv d (List.mem_cons_self _ _)
    have hrest : ∀ x ∈ rest, x.valid = false := fun x hx => hv x (List.mem_cons_of_mem _ hx)
    simp [alert_task_loop, alert_task_cycle_invalid _ d hd, ih hrest]

theorem alert_task_loop_append (xs ys : List sensor_data_t) :
    ∀ last_alert_state : Bool,
      alert_task_loop last_alert_state (xs ++ ys) =
        ((alert_task_loop (alert_task_loop last_alert_state xs).1 ys).1,
         (alert_task_loop last_alert_state xs).2 ++
           (alert_task_loop (alert_task_loop last_alert_state xs).1 ys).2) := by
  induction xs with
  | nil => intro l; simp [alert_task_loop]
  | cons d rest ih => intro l; simp [alert_task_loop, ih]

theorem display_task_status_eq (data : sensor_data_t) :
    display_task_status data
      = (match condition_of data with
         | AlertCondition.TOO_HOT_AND_DRY => "Too hot & dry!"
         | AlertCondition.TOO_HOT => "Temp too high!"
         | AlertCondition.TOO_DRY => "Humidity low!"
         | AlertCondition.NORMAL => "Plant is OK :)") := by
  unfold display_task_status condition_of
  by_cases h1 : data.temperature ≥ TEMP_HIGH_THRESHOLD <;>
    by_cases h2 : data.humidity ≤ HUM_LOW_THRESHOLD <;>
    simp [h1, h2, classify]

theorem run_sensor_ops_fields (ops : List SensorOp) :
    ∀ cur : sensor_data_t,
      ((run_sensor_ops cur ops).temperature, (run_sensor_ops cur ops).humidity)
        = (last_published ops).getD (cur.temperature, cur.humidity) := by
  induction ops with
  | nil => intro cur; rfl
  | cons op rest ih =>
    intro cur
    have h := ih (SensorOp.apply cur op)
    simp only [run_sensor_ops, List.foldl_cons] at h ⊢
    rw [h]
    cases hl : last_published rest with
    | some p => simp [last_published, hl]
    | none =>
      cases op with
      | publish t h => simp [last_published, hl, SensorOp.apply, sensor_publish]
      | invalidate => simp [last_published, hl, SensorOp.apply, sensor_invalidate]

theorem last_published_mem (ops : List SensorOp) :
    ∀ t h : ℚ, last_published ops = some (t, h) → SensorOp.publish t h ∈ ops := by
  induction ops with
  | nil => intro t h hl; simp [last_published] at hl
  | cons op rest ih =>
    intro t h hl
    cases hr : last_published rest with
    | some p =>
      simp only [last_published, hr] at hl
      have hp : p = (t, h) := Option.some.inj hl
      subst hp
      exact List.mem_cons_of_mem _ (ih _ _ hr)
    | none =>
      cases op with
      | publish t2 h2 =>
        simp only [last_published, hr, Option.some.injEq, Prod.mk.injEq] at hl
        rw [hl.1, hl.2]
        exact List.mem_cons_self _ _
      | invalidate => simp [last_published, hr] at hl

theorem run_invalid_silent (sched : List Step) :
    ∀ s : AppState, s.current_sensor_data.valid = false →
      (∀ st ∈ sched, st.publishes = false) →
      (s.run sched).2 = [] ∧ (s.run sched).1.current_sensor_data.valid = false := by
  induction sched with
  | nil => intro s hs _; exact ⟨rfl, hs⟩
  | cons st rest ih =>
    intro s hs hp
    have hst : st.publishes = false := hp st (List.mem_cons_self _ _)
    have hrest : ∀ x ∈ rest, x.publishes = false :=
      fun x hx => hp x (List.mem_cons_of_mem _ hx)
    have key : (s.step st).2 = [] ∧ (s.step st).1.current_sensor_data.valid = false := by
      cases st with
      | sensor r =>
        have hr : ¬ r.res = ESP_OK := by simpa [Step.publishes] using hst
        simp [AppState.step, sensor_task_cycle, hr, sensor_invalidate]
      | cloud => simp [AppState.step, cloud_task_cycle, snapshot, hs]
      | alert => simp [AppState.step, alert_task_cycle, snapshot, hs]
      | display => simp [AppState.step, display_task_cycle, snapshot, hs]
    have h := ih (s.step st).1 key.2 hrest
    simp only [AppState.run, key.1, h.1, h.2, List.append_nil, and_self]

/-! ## Claims -/

/-- C1: over valid readings and starting with `last_alert_state = false`, the number
of `esp_rmaker_raise_alert` calls made by the iterations of `alert_task` equals the
number of rising edges of the condition sequence (every call made is such a
notification); a condition sequence NORMAL, TOO_HOT, TOO_HOT, TOO_HOT, NORMAL,
TOO_HOT gives exactly two notifications. -/
theorem alert_notifications_eq_rising_edges (snaps : List sensor_data_t)
    (hv : ∀ d ∈ snaps, d.valid = true) :
    notifications (alert_task_loop false snaps).2 = rising_edges (snaps.map condition_of) ∧
    (alert_task_loop false snaps).2.length = notifications (alert_task_loop false snaps).2 ∧
    (snaps.map condition_of =
        [AlertCondition.NORMAL, AlertCondition.TOO_HOT, AlertCondition.TOO_HOT,
         AlertCondition.TOO_HOT, AlertCondition.NORMAL, AlertCondition.TOO_HOT] →
      notifications (alert_task_loop false snaps).2 = 2) := by
  have h1 : notifications (alert_task_loop false snaps).2
      = rising_edges (snaps.map condition_of) := by
    rw [alert_task_loop_edges snaps false AlertCondition.NORMAL hv (by simp),
      rising_edges_after_normal]
  refine ⟨h1, ?_, ?_⟩
  · clear h1
    generalize false = l
    induction snaps generalizing l with
    | nil => rfl
    | cons d rest ih =>
      have hd : d.valid = true := hv d (List.mem_cons_self _ _)
      have hrest : ∀ x ∈ rest, x.valid = true :=
        fun x hx => hv x (List.mem_cons_of_mem _ hx)
      simp only [alert_task_loop, notifications_append, List.length_append]
      rw [ih hrest, alert_task_cycle_valid l d hd]
      congr 1
      by_cases hc : (abnormal d && !l) = true <;> simp [hc, notifications, Event.is_alert]
  · intro hc
    rw [h1, hc]
    decide

/-- Witness for C1: three hot readings between normal ones, then a hot one. -/
theorem alert_notifications_eq_rising_edges_witness :
    notifications (alert_task_loop false
      [⟨25, 60, true⟩, ⟨36, 60, true⟩, ⟨37, 60, true⟩, ⟨36, 60, true⟩, ⟨25, 60, true⟩,
       ⟨36, 60, true⟩]).2 = 2 :=
  (alert_notifications_eq_rising_edges
    [⟨25, 60, true⟩, ⟨36, 60, true⟩, ⟨37, 60, true⟩, ⟨36, 60, true⟩, ⟨25, 60, true⟩,
     ⟨36, 60, true⟩] (by decide)).2.2 (by decide)

/-- C2: for a valid reading, the outcome of the threshold checks of `alert_task`
expresses the class that the classification table gives for
`temp_high = (temperature >= 35.0)` and `hum_low = (humidity <= 40.0)`, and this class
decides the call made by a cycle that starts unraised; whenever `temperature >= 35.0`
and `humidity <= 40.0` the combined message is written and the class is
TOO_HOT_AND_DRY, not a single-condition class. -/
theorem alert_classification (data : sensor_data_t) (hv : data.valid = true) :
    alert_class (alert_task_check data)
      = some (classify (decide (data.temperature ≥ TEMP_HIGH_THRESHOLD))
          (decide (data.humidity ≤ HUM_LOW_THRESHOLD))) ∧
    (alert_task_cycle false data).2
      = (if classify (decide (data.temperature ≥ TEMP_HIGH_THRESHOLD))
            (decide (data.humidity ≤ HUM_LOW_THRESHOLD)) = AlertCondition.NORMAL then []
         else [Event.esp_rmaker_raise_alert (alert_task_check data).2]) ∧
    (data.temperature ≥ 35 → data.humidity ≤ 40 →
      alert_task_check data
        = (true, snprintf "Too hot & too dry! T=%.1f°C H=%.1f%%"
            [FmtArg.float data.temperature, FmtArg.float data.humidity]) ∧
      alert_class (alert_task_check data) = some AlertCondition.TOO_HOT_AND_DRY ∧
      alert_class (alert_task_check data) ≠ some AlertCondition.TOO_HOT ∧
      alert_class (alert_task_check data) ≠ some AlertCondition.TOO_DRY) := by
  refine ⟨alert_class_check data, ?_, ?_⟩
  · rw [alert_task_cycle_valid false data hv]
    by_cases hc : condition_of data = AlertCondition.NORMAL
    · have hc2 := hc
      unfold condition_of at hc2
      simp [abnormal, hc, hc2]
    · have hc2 := hc
      unfold condition_of at hc2
      simp [abnormal, hc, hc2]
  · intro ht hh
    have h1 : data.temperature ≥ TEMP_HIGH_THRESHOLD := by simpa [TEMP_HIGH_THRESHOLD] using ht
    have h2 : data.humidity ≤ HUM_LOW_THRESHOLD := by simpa [HUM_LOW_THRESHOLD] using hh
    have hcheck : alert_task_check data
        = (true, snprintf "Too hot & too dry! T=%.1f°C H=%.1f%%"
            [FmtArg.float data.temperature, FmtArg.float data.humidity]) := by
      simp [alert_task_check, h1, h2]
    have hclass : alert_class (alert_task_check data) = some AlertCondition.TOO_HOT_AND_DRY := by
      rw [alert_class_check]
      simp [condition_of, h1, h2, classify]
    refine ⟨hcheck, hclass, ?_, ?_⟩ <;> rw [hclass] <;> decide

/-- Witness for C2: the reading exactly on both thresholds. -/
theorem alert_classification_witness :
    alert_class (alert_task_check ⟨35, 40, true⟩) = some AlertCondition.TOO_HOT_AND_DRY :=
  ((alert_classification ⟨35, 40, true⟩ rfl).2.2 (by norm_num) (by norm_num)).2.1

/-- C3, as stated, fails: with the actuator already ON, two calls
`app_driver_set_state(true)` make no `gpio_set_level` call at all, not one. -/
theorem set_twice_same_state_no_write :
    (app_driver_set_state_seq true [true, true]).2 = [] ∧
    ¬ (app_driver_set_state_seq true [true, true]).2.length = 1 := by
  decide

/-- C3, amended: two consecutive calls `app_driver_set_state(x)` make exactly one
`gpio_set_level` call in total when the prior state differs from `x` (level 0 for
ON, level 1 for OFF) and none when the prior state already equals `x`; the second
call never makes one, and the state ends as `x`. -/
theorem set_twice_writes_at_most_once (g_power_state x : Bool) :
    (app_driver_set_state_seq g_power_state [x, x]).2
      = (if g_power_state = x then []
         else [Event.gpio_set_level OUTPUT_GPIO (if x then 0 else 1)]) ∧
    (app_driver_set_state (app_driver_set_state g_power_state x).1 x).2.2 = [] ∧
    (app_driver_set_state_seq g_power_state [x, x]).1 = x := by
  cases g_power_state <;> cases x <;> decide

/-- C4: `app_driver_get_state()` right after `app_driver_set_state(x)` returns `x`,
whatever the prior state; the value returned by `app_driver_get_state` is the current
`g_power_state`, one of the two boolean values, and the call leaves `g_power_state`
unchanged. -/
theorem get_after_set_returns_target (g_power_state x : Bool) :
    (app_driver_get_state (app_driver_set_state g_power_state x).1).2 = x ∧
    (app_driver_get_state g_power_state).2 = g_power_state ∧
    ((app_driver_get_state g_power_state).2 = true ∨
      (app_driver_get_state g_power_state).2 = false) ∧
    (app_driver_get_state g_power_state).1 = g_power_state := by
  cases g_power_state <;> cases x <;> decide

/-- C9: `app_driver_set_state(target)` makes exactly one `gpio_set_level` call on
`OUTPUT_GPIO` when `target` differs from the current state, at level 0 for
`target = true` and level 1 for `target = false`, and the state becomes `target`; when
`target` equals the current state it makes no call and the state is unchanged.  It
returns `ESP_OK` in both cases. -/
theorem set_state_writes_iff_changed (g_power_state target : Bool) :
    (app_driver_set_state g_power_state target).2.2
      = (if target = g_power_state then []
         else [Event.gpio_set_level OUTPUT_GPIO (if target then 0 else 1)]) ∧
    (app_driver_set_state g_power_state target).1 = target ∧
    (app_driver_set_state g_power_state target).1
      = (if target = g_power_state then g_power_state else target) ∧
    (app_driver_set_state g_power_state target).2.1 = ESP_OK ∧
    app_driver_set_state false true = (true, ESP_OK, [Event.gpio_set_level 3 0]) ∧
    app_driver_set_state true false = (false, ESP_OK, [Event.gpio_set_level 3 1]) ∧
    app_driver_set_state true true = (true, ESP_OK, []) ∧
    app_driver_set_state false false = (false, ESP_OK, []) := by
  cases g_power_state <;> cases target <;> decide

/-- C5: after an iteration of `sensor_task` whose read failed, the shared record has
`valid == false`; over any following schedule of `cloud_task`, `alert_task` and
`display_task` iterations and further failed reads, no SDK call is made (no parameter
report, no alert, no display drawing) and `valid` stays false; each reader cycle on a
snapshot with `valid == false` makes no SDK call; the next successful read sets
`valid` back to true. -/
theorem invalid_state_no_external_action (s : AppState) (r : dht_result)
    (hr : r.res ≠ ESP_OK) (sched : List Step) (hs : ∀ st ∈ sched, st.publishes = false) :
    (snapshot (s.step (Step.sensor r)).1.current_sensor_data).valid = false ∧
    (((s.step (Step.sensor r)).1).run sched).2 = [] ∧
    (((s.step (Step.sensor r)).1).run sched).1.current_sensor_data.valid = false ∧
    (∀ (data : sensor_data_t) (temp_param hum_param last_alert_state dev g : Bool),
      data.valid = false →
        cloud_task_cycle temp_param hum_param data = [] ∧
        alert_task_cycle last_alert_state data = (last_alert_state, []) ∧
        display_task_cycle dev g data = []) ∧
    (∀ r2 : dht_result, r2.res = ESP_OK →
      (((((s.step (Step.sensor r)).1).run sched).1).step
        (Step.sensor r2)).1.current_sensor_data.valid = true) := by
  have h0 : (s.step (Step.sensor r)).1.current_sensor_data.valid = false := by
    simp [AppState.step, sensor_task_cycle, hr, sensor_invalidate]
  have h1 := run_invalid_silent sched (s.step (Step.sensor r)).1 h0 hs
  refine ⟨h0, h1.1, h1.2, ?_, ?_⟩
  · intro data tp hp l dev g hv
    simp [cloud_task_cycle, alert_task_cycle, display_task_cycle, hv]
  · intro r2 h2
    simp [AppState.step, sensor_task_cycle, h2, sensor_publish]

/-- Witness for C5: a failed read (code 1) on a device that showed a hot and dry
reading, followed by one iteration of each reader task. -/
theorem invalid_state_no_external_action_witness :
    ((((⟨⟨36, 30, true⟩, true, false, true, true, true⟩ : AppState).step
        (Step.sensor ⟨1, 0, 0⟩)).1).run [Step.cloud, Step.alert, Step.display]).2 = [] :=
  (invalid_state_no_external_action ⟨⟨36, 30, true⟩, true, false, true, true, true⟩
    ⟨1, 0, 0⟩ (by decide) [Step.cloud, Step.alert, Step.display] (by decide)).2.1

/-- C6: after any sequence of the two critical sections of `sensor_task`, starting
from the initial record, a snapshot holds exactly the pair written by the most recent
publish, or the initial zero pair when nothing was published, so both fields come
from one publish call of the sequence; `invalidate` changes only the `valid` flag. -/
theorem snapshot_is_last_published (ops : List SensorOp) :
    ((snapshot (run_sensor_ops current_sensor_data_init ops)).temperature,
      (snapshot (run_sensor_ops current_sensor_data_init ops)).humidity)
        = (last_published ops).getD (0, 0) ∧
    ((last_published ops = none ∧
        (snapshot (run_sensor_ops current_sensor_data_init ops)).temperature = 0 ∧
        (snapshot (run_sensor_ops current_sensor_data_init ops)).humidity = 0) ∨
      SensorOp.publish (snapshot (run_sensor_ops current_sensor_data_init ops)).temperature
        (snapshot (run_sensor_ops current_sensor_data_init ops)).humidity ∈ ops) ∧
    (∀ cur : sensor_data_t,
      (sensor_invalidate cur).temperature = cur.temperature ∧
      (sensor_invalidate cur).humidity = cur.humidity ∧
      (sensor_invalidate cur).valid = false) := by
  have h := run_sensor_ops_fields ops current_sensor_data_init
  have h0 : (current_sensor_data_init.temperature, current_sensor_data_init.humidity)
      = ((0 : ℚ), (0 : ℚ)) := rfl
  rw [h0] at h
  refine ⟨h, ?_, ?_⟩
  · cases hl : last_published ops with
    | none =>
      left
      rw [hl] at h
      simp only [Option.getD_none, Prod.mk.injEq] at h
      exact ⟨rfl, h.1, h.2⟩
    | some p =>
      right
      rw [hl] at h
      simp only [Option.getD_some] at h
      obtain ⟨t, q⟩ := p
      simp only [Prod.mk.injEq] at h
      simp only [snapshot, h.1, h.2]
      exact last_published_mem ops t q hl
  · intro cur
    simp [sensor_invalidate]

/-- C7, as stated, fails: for the valid reading 36.0 / 30.0 the threshold checks of
`alert_task` express TOO_HOT_AND_DRY, yet the status text of `display_task` is
"Too hot & dry!", which is not the phrase "too hot & dry", and no line with that
phrase is drawn; likewise the text for a NORMAL reading is not "ok". -/
theorem display_status_differs_from_phrase :
    alert_class (alert_task_check ⟨36, 30, true⟩) = some AlertCondition.TOO_HOT_AND_DRY ∧
    display_task_status ⟨36, 30, true⟩ = "Too hot & dry!" ∧
    display_task_status ⟨36, 30, true⟩ ≠ status_phrase AlertCondition.TOO_HOT_AND_DRY ∧
    ¬ (display_task_status ⟨36, 30, true⟩ = "too hot & dry" ↔
        alert_class (alert_task_check ⟨36, 30, true⟩) = some AlertCondition.TOO_HOT_AND_DRY) ∧
    Event.ssd1306_draw_string 0 32 (snprintf "%s" [FmtArg.str "too hot & dry"]) 12 1
      ∉ display_task_cycle true false ⟨36, 30, true⟩ ∧
    alert_class (alert_task_check ⟨25, 60, true⟩) = some AlertCondition.NORMAL ∧
    display_task_status ⟨25, 60, true⟩ ≠ status_phrase AlertCondition.NORMAL := by
  decide

/-- C7, amended: for a valid reading, the status text chosen by `display_task` is
"Too hot & dry!" exactly when the threshold checks of `alert_task` express
TOO_HOT_AND_DRY, "Temp too high!" exactly when they express TOO_HOT, "Humidity low!"
exactly when they express TOO_DRY and "Plant is OK :)" exactly when they express
NORMAL, and this text is the third line drawn.  End to end: after a successful read
of raw values 360 and 300 (36.0 and 30.0), with no alert raised yet and the display
present, `alert_task` makes one `esp_rmaker_raise_alert` call with the combined
message and `display_task` draws the status "Too hot & dry!". -/
theorem display_status_matches_alert_class (data : sensor_data_t) (hv : data.valid = true) :
    (display_task_status data = "Too hot & dry!" ↔
      alert_class (alert_task_check data) = some AlertCondition.TOO_HOT_AND_DRY) ∧
    (display_task_status data = "Temp too high!" ↔
      alert_class (alert_task_check data) = some AlertCondition.TOO_HOT) ∧
    (display_task_status data = "Humidity low!" ↔
      alert_class (alert_task_check data) = some AlertCondition.TOO_DRY) ∧
    (display_task_status data = "Plant is OK :)" ↔
      alert_class (alert_task_check data) = some AlertCondition.NORMAL) ∧
    (∀ g : Bool,
      display_task_cycle true g data
        = [Event.ssd1306_clear_screen 0,
           Event.ssd1306_draw_string 0 0
            (snprintf "T:%.1fC H:%.1f%%"
              [FmtArg.float data.temperature, FmtArg.float data.humidity]) 12 1,
           Event.ssd1306_draw_string 0 16
            (snprintf "Pump: %s" [FmtArg.str (if g then "ON" else "OFF")]) 12 1,
           Event.ssd1306_draw_string 0 32
            (snprintf "%s" [FmtArg.str (display_task_status data)]) 12 1,
           Event.ssd1306_refresh_gram]) ∧
    (∀ g : Bool,
      ((⟨current_sensor_data_init, g, false, true, true, true⟩ : AppState).run
          [Step.sensor ⟨ESP_OK, 300, 360⟩, Step.alert, Step.display]).2
        = [Event.esp_rmaker_raise_alert
            (snprintf "Too hot & too dry! T=%.1f°C H=%.1f%%" [FmtArg.float 36, FmtArg.float 30]),
           Event.ssd1306_clear_screen 0,
           Event.ssd1306_draw_string 0 0
            (snprintf "T:%.1fC H:%.1f%%" [FmtArg.float 36, FmtArg.float 30]) 12 1,
           Event.ssd1306_draw_string 0 16
            (snprintf "Pump: %s" [FmtArg.str (if g then "ON" else "OFF")]) 12 1,
           Event.ssd1306_draw_string 0 32 (snprintf "%s" [FmtArg.str "Too hot & dry!"]) 12 1,
           Event.ssd1306_refresh_gram]) := by
  have hst := display_task_status_eq data
  have hcl := alert_class_check data
  refine ⟨?_, ?_, ?_, ?_, ?_, ?_⟩
  · rw [hst, hcl]; cases condition_of data <;> decide
  · rw [hst, hcl]; cases condition_of data <;> decide
  · rw [hst, hcl]; cases condition_of data <;> decide
  · rw [hst, hcl]; cases condition_of data <;> decide
  · intro g
    simp [display_task_cycle, hv, oled_show_readings, app_driver_get_state]
  · intro g
    have hs : sensor_task_cycle current_sensor_data_init ⟨ESP_OK, 300, 360⟩
        = ⟨36, 30, true⟩ := by
      norm_num [sensor_task_cycle, sensor_publish]
    have ha : alert_task_cycle false ⟨36, 30, true⟩
        = (true, [Event.esp_rmaker_raise_alert
            (snprintf "Too hot & too dry! T=%.1f°C H=%.1f%%"
              [FmtArg.float 36, FmtArg.float 30])]) := by decide
    have hd : display_task_status ⟨36, 30, true⟩ = "Too hot & dry!" := by decide
    simp only [AppState.run, AppState.step, snapshot, hs, ha, display_task_cycle, hd,
      oled_show_readings, app_driver_get_state]
    cases g <;> rfl

/-- Witness for C7: the reading 36.0 / 30.0. -/
theorem display_status_matches_alert_class_witness :
    display_task_status ⟨36, 30, true⟩ = "Too hot & dry!" ↔
      alert_class (alert_task_check ⟨36, 30, true⟩) = some AlertCondition.TOO_HOT_AND_DRY :=
  (display_status_matches_alert_class ⟨36, 30, true⟩ rfl).1

/-- C8: on the initial record (`valid == false`) with the display present, an
iteration of `display_task` draws nothing: the text "Initializing..." placed in
`status` never reaches `oled_show_readings`. -/
theorem display_invalid_draws_nothing :
    display_task_cycle true false current_sensor_data_init = [] ∧
    ∀ text : Formatted,
      Event.ssd1306_draw_string 0 32 text 12 1
        ∉ display_task_cycle true false current_sensor_data_init := by
  have h : display_task_cycle true false current_sensor_data_init = [] := by decide
  refine ⟨h, ?_⟩
  intro text
  rw [h]
  simp

/-- C10: an iteration of `alert_task` on a snapshot with `valid == false` leaves
`last_alert_state` unchanged and makes no call.  Hence after an abnormal valid
reading followed by any number of invalid cycles the flag is still raised, and the
cycle on a second abnormal valid reading makes no `esp_rmaker_raise_alert` call: the
whole sequence makes no more notifications than its first cycle. -/
theorem alert_invalid_cycles_keep_flag (last_alert_state : Bool) (d1 d2 : sensor_data_t)
    (invalids : List sensor_data_t)
    (h1v : d1.valid = true) (h1a : abnormal d1 = true)
    (hinv : ∀ d ∈ invalids, d.valid = false)
    (h2v : d2.valid = true) (h2a : abnormal d2 = true) :
    (∀ (l : Bool) (d : sensor_data_t), d.valid = false → alert_task_cycle l d = (l, [])) ∧
    (alert_task_loop last_alert_state (d1 :: invalids)).1 = true ∧
    alert_task_cycle (alert_task_loop last_alert_state (d1 :: invalids)).1 d2 = (true, []) ∧
    notifications (alert_task_loop last_alert_state (d1 :: (invalids ++ [d2]))).2
      = notifications (alert_task_cycle last_alert_state d1).2 := by
  have hflag : (alert_task_loop last_alert_state (d1 :: invalids)).1 = true := by
    simp only [alert_task_loop]
    rw [alert_task_loop_invalid invalids _ hinv, alert_task_cycle_valid _ d1 h1v]
    exact h1a
  have hsecond : alert_task_cycle true d2 = (true, []) := by
    rw [alert_task_cycle_valid true d2 h2v]
    simp [h2a]
  refine ⟨fun l d hd => alert_task_cycle_invalid l d hd, hflag, ?_, ?_⟩
  · rw [hflag]
    exact hsecond
  · have happ := alert_task_loop_append (d1 :: invalids) [d2] last_alert_state
    rw [List.cons_append] at happ
    rw [happ, hflag]
    simp only [alert_task_loop, hsecond, List.append_nil]
    rw [alert_task_loop_invalid invalids _ hinv]
    simp

/-- Witness for C10: a hot reading, two failed reads, then a dry reading. -/
theorem alert_invalid_cycles_keep_flag_witness :
    notifications (alert_task_loop false
        (⟨36, 60, true⟩ :: ([⟨36, 60, false⟩, ⟨36, 60, false⟩] ++ [⟨25, 30, true⟩]))).2
      = notifications (alert_task_cycle false ⟨36, 60, true⟩).2 :=
  (alert_invalid_cycles_keep_flag false ⟨36, 60, true⟩ ⟨25, 30, true⟩
    [⟨36, 60, false⟩, ⟨36, 60, false⟩] rfl (by decide) (by decide) rfl (by decide)).2.2.2

end SmartPlant
